import Mathlib

/-!
Shallow embedding of the EcoCollect core: the e-waste classification matcher
(src/src/hooks/use-ewaste-scanner.ts), the pickup lifecycle and credit ledger
services (src/src/lib/firebase/services.ts), and the pickup form submission
(PickupForm.handleSubmit in the main application file).

JavaScript numbers are modelled as rationals (the operations involved are
addition, multiplication by constants and rounding); server timestamps are
threaded as opaque strings; Firestore documents are association lists keyed by
document id; generated document ids are explicit parameters.
-/

namespace EcoCollect

/-! ## JavaScript string primitives used by the scanner -/

/-- JS `String.prototype.includes`: substring containment. -/
def jsIncludes (s sub : String) : Bool :=
  decide (sub.toList <:+: s.toList)

/-- JS `.toLowerCase()` (character-wise; the labels and map keys involved are
ASCII, where this coincides with JS). Defined over the character list so that
concrete scans evaluate inside the kernel. -/
def jsToLower (s : String) : String :=
  String.mk (s.data.map Char.toLower)

/-- Splitting on the space character with JS `split(' ')` semantics: empty
fragments are kept, and the empty string yields `[""]`. Structural recursion
over the character list. -/
def splitSpaceAux : List Char → List Char → List String
  | [], acc => [String.mk acc.reverse]
  | c :: rest, acc =>
    if c = ' ' then String.mk acc.reverse :: splitSpaceAux rest []
    else splitSpaceAux rest (c :: acc)

/-- The word list of a prediction label, as in `scanImage`:
`className.toLowerCase().replace(/[,_]/g, ' ').split(' ')`. -/
def normalizeWords (s : String) : List String :=
  splitSpaceAux ((s.data.map Char.toLower).map
    (fun c => if c = ',' ∨ c = '_' then ' ' else c)) []

/-! ## Classification matcher (use-ewaste-scanner.ts) -/

/-- One (label, probability) pair returned by the external classifier. -/
structure Prediction where
  className : String
  probability : ℚ
  deriving Repr, DecidableEq

/-- The decision record built by `scanImage` (`ScanResult` in the source). -/
structure ScanResult where
  label : String
  confidence : ℚ
  isEwaste : Bool
  category : Option String
  categorySlug : Option String
  allPredictions : List Prediction
  deriving Repr, DecidableEq

/-- `EWASTE_LABEL_MAP` in source order: (key, category, slug) triples. -/
def ewasteLabelMap : List (String × String × String) :=
  [ ("cellular_telephone", "Smartphones & Tablets", "smartphones"),
    ("cell_phone", "Smartphones & Tablets", "smartphones"),
    ("smartphone", "Smartphones & Tablets", "smartphones"),
    ("iPod", "Smartphones & Tablets", "smartphones"),
    ("tablet", "Smartphones & Tablets", "smartphones"),
    ("laptop", "Laptops & Computers", "laptops"),
    ("notebook", "Laptops & Computers", "laptops"),
    ("desktop_computer", "Laptops & Computers", "laptops"),
    ("monitor", "Laptops & Computers", "laptops"),
    ("screen", "Laptops & Computers", "laptops"),
    ("keyboard", "Laptops & Computers", "laptops"),
    ("mouse", "Laptops & Computers", "laptops"),
    ("computer_keyboard", "Laptops & Computers", "laptops"),
    ("television", "TVs & Displays", "displays"),
    ("TV", "TVs & Displays", "displays"),
    ("digital_clock", "TVs & Displays", "displays"),
    ("headphone", "Audio & Wearables", "audio"),
    ("earphone", "Audio & Wearables", "audio"),
    ("speaker", "Audio & Wearables", "audio"),
    ("loudspeaker", "Audio & Wearables", "audio"),
    ("digital_watch", "Audio & Wearables", "audio"),
    ("joystick", "Gaming Consoles", "gaming"),
    ("remote_control", "Gaming Consoles", "gaming"),
    ("printer", "Printers & Scanners", "printers"),
    ("modem", "Networking Equipment", "networking"),
    ("router", "Networking Equipment", "networking"),
    ("microwave", "Kitchen Appliances", "kitchen"),
    ("toaster", "Kitchen Appliances", "kitchen"),
    ("coffee_maker", "Kitchen Appliances", "kitchen"),
    ("electric_fan", "Kitchen Appliances", "kitchen"),
    ("iron", "Kitchen Appliances", "kitchen"),
    ("vacuum", "Kitchen Appliances", "kitchen"),
    ("washer", "Kitchen Appliances", "kitchen"),
    ("refrigerator", "Kitchen Appliances", "kitchen"),
    ("power_cord", "Cables & Chargers", "cables"),
    ("plug", "Cables & Chargers", "cables"),
    ("adapter", "Cables & Chargers", "cables"),
    ("battery", "Batteries", "batteries") ]

/-- The bidirectional containment test of `scanImage`:
`word.includes(key.toLowerCase()) || key.toLowerCase().includes(word)`. -/
def predWordHit (word key : String) : Bool :=
  jsIncludes word (jsToLower key) || jsIncludes (jsToLower key) word

/-- The scan of `scanImage` (predictions outer, words middle, map keys inner):
the first (prediction, word, key) hit whose prediction clears the 0.1
probability gate is returned with the mapped (category, slug). -/
def scanHit (predictions : List Prediction) : Option (Prediction × String × String) :=
  predictions.findSome? (fun pred =>
    (normalizeWords pred.className).findSome? (fun word =>
      ewasteLabelMap.findSome? (fun e =>
        if predWordHit word e.1 ∧ (1 : ℚ)/10 < pred.probability then
          some (pred, e.2.1, e.2.2)
        else none)))

/-- The same scan with no probability gate: the first (prediction, word, key)
hit in scan order, used to state the ordering property of the matcher. -/
def firstHit (predictions : List Prediction) : Option (Prediction × String × String) :=
  predictions.findSome? (fun pred =>
    (normalizeWords pred.className).findSome? (fun word =>
      ewasteLabelMap.findSome? (fun e =>
        if predWordHit word e.1 then some (pred, e.2.1, e.2.2) else none)))

/-- The classification core of `scanImage` (lines 125-168 of
use-ewaste-scanner.ts): on a gated hit return the positive decision built at
the hit, otherwise the pre-built `bestMatch` negative decision
(`predictions[0]?.className || 'Unknown'` makes an empty or missing top label
fall back to the sentinel, and `predictions[0]?.probability || 0` leaves any
present probability unchanged since only 0 is falsy among rationals). -/
def classify (predictions : List Prediction) : ScanResult :=
  match scanHit predictions with
  | some (pred, cat, slug) =>
    { label := pred.className
      confidence := pred.probability
      isEwaste := true
      category := some cat
      categorySlug := some slug
      allPredictions := predictions }
  | none =>
    { label :=
        match predictions.head? with
        | some p => if p.className = "" then "Unknown" else p.className
        | none => "Unknown"
      confidence := (predictions.head?.map Prediction.probability).getD 0
      isEwaste := false
      category := none
      categorySlug := none
      allPredictions := predictions }

/-- The per-prediction part of the source scan, with no probability gate:
the (category, slug) of the first (word, key) hit for this label. -/
def predMatch (pred : Prediction) : Option (String × String) :=
  (normalizeWords pred.className).findSome? (fun word =>
    ewasteLabelMap.findSome? (fun e =>
      if predWordHit word e.1 then some (e.2.1, e.2.2) else none))

/-! ## Stored records (Firestore documents written by services.ts) -/

/-- A pickup request document as written by the services (`PickupRequest` in
database.ts without the generated `id`, which is the association-list key;
`cancelledAt` is written by `updatePickupStatus` although absent from the
declared type, Firestore being schemaless). The status is a plain string, as
in `updatePickupStatus(pickupId, status: string)`. -/
structure StoredPickup where
  donorId : String
  collectorId : Option String
  pickupAddress : String
  pickupCity : String
  pickupState : String
  pickupZip : String
  pickupLatitude : ℚ
  pickupLongitude : ℚ
  pickupInstructions : Option String
  preferredDate : String
  preferredTimeSlot : String
  status : String
  totalItems : ℚ
  estimatedWeightKg : ℚ
  actualWeightKg : Option ℚ
  estimatedCredits : ℚ
  actualCreditsAwarded : Option ℚ
  aiScanResults : Option String
  itemPhotos : List String
  donorRating : Option ℚ
  collectorRating : Option ℚ
  matchedAt : Option String
  collectedAt : Option String
  completedAt : Option String
  cancelledAt : Option String
  createdAt : String
  updatedAt : String
  deriving Repr, DecidableEq

/-- A pickup item document (`PickupItem` without the generated id). -/
structure StoredPickupItem where
  pickupId : String
  categoryId : String
  description : Option String
  quantity : ℚ
  condition : String
  estimatedWeightKg : ℚ
  actualWeightKg : Option ℚ
  photoUrl : Option String
  aiDetectedLabel : Option String
  aiConfidence : Option ℚ
  creditsEarned : ℚ
  createdAt : String
  deriving Repr, DecidableEq

/-- A profile document. `lastActivityAt` is written by
`completePickupAndAwardCredits` although absent from the declared `Profile`
type (Firestore is schemaless). -/
structure StoredProfile where
  id : String
  email : String
  fullName : String
  avatarUrl : Option String
  role : String
  greenCredits : ℚ
  totalItemsRecycled : ℚ
  totalWeightKg : ℚ
  co2SavedKg : ℚ
  streakDays : ℚ
  badgeLevel : String
  isVerified : Bool
  lastActivityAt : Option String
  createdAt : String
  updatedAt : String
  deriving Repr, DecidableEq

/-- A credit transaction document (`CreditTransaction` without the generated
id; `referenceId` is written by `completePickupAndAwardCredits` although the
declared type has `balanceAfter` instead, which no writer ever sets). -/
structure StoredCreditTransaction where
  userId : String
  amount : ℚ
  type : String
  description : String
  referenceId : Option String
  createdAt : String
  deriving Repr, DecidableEq

/-- The opaque `data` payload of a notification. -/
inductive NotifData where
  | creditEarned (amount : ℚ) (pickupId : String)
  | raw (s : String)
  deriving Repr, DecidableEq

/-- A notification document. `isRead` is an `Option` because the notification
written directly by `completePickupAndAwardCredits` omits the field, while
`createNotification` always writes `false`. -/
structure StoredNotification where
  userId : String
  title : String
  body : String
  type : String
  data : NotifData
  isRead : Option Bool
  createdAt : String
  deriving Repr, DecidableEq

/-- The relevant Firestore collections. Documents are (id, record) pairs;
credit transactions need no ids (no operation addresses one by id). -/
structure DB where
  pickups : List (String × StoredPickup)
  pickupItems : List StoredPickupItem
  profiles : List (String × StoredProfile)
  transactions : List StoredCreditTransaction
  notifications : List (String × StoredNotification)
  deriving Repr, DecidableEq

/-- Firestore errors the services can actually surface: the explicit
`throw new Error('Pickup not found')`, and the failure of an
`updateDoc`/batched update addressed to a missing document (which aborts the
whole atomic commit). No other failure path exists in the source. -/
inductive Err where
  | notFound
  | missingDoc
  deriving Repr, DecidableEq

/-- Lookup in an association list of documents. -/
def getRec {α : Type} : List (String × α) → String → Option α
  | [], _ => none
  | (k, v) :: rest, key => if k = key then some v else getRec rest key

/-- Replace the document stored under a key (used for `updateDoc` and
`batch.update`, which require the document to exist). -/
def updateRec {α : Type} : List (String × α) → String → α → List (String × α)
  | [], _, _ => []
  | (k, v) :: rest, key, w =>
    if k = key then (k, w) :: rest else (k, v) :: updateRec rest key w

/-- Create-or-overwrite under a key (`setDoc`). -/
def setRec {α : Type} (l : List (String × α)) (key : String) (w : α) :
    List (String × α) :=
  match getRec l key with
  | some _ => updateRec l key w
  | none => l ++ [(key, w)]

/-! ## Services (src/src/lib/firebase/services.ts) -/

/-- `createProfile(userId, data)`: writes the default profile record merged
with the caller-supplied partial data. At every call site in the application
the partial data carries only `email`, `fullName` and optionally `avatarUrl`,
so exactly those overrides are modelled; the numeric baselines, role, badge
and flags always take the defaults shown in the source. -/
def createProfile (db : DB) (userId : String) (email fullName : String)
    (avatarUrl : Option String) (now : String) : DB :=
  { db with
    profiles := setRec db.profiles userId
      { id := userId
        email := email
        fullName := fullName
        avatarUrl := avatarUrl
        role := "donor"
        greenCredits := 0
        totalItemsRecycled := 0
        totalWeightKg := 0
        co2SavedKg := 0
        streakDays := 0
        badgeLevel := "seedling"
        isVerified := false
        lastActivityAt := none
        createdAt := now
        updatedAt := now } }

/-- `updatePickupStatus(pickupId, status)`: unconditionally writes the given
status and `updatedAt`, stamping the matching transition timestamp when the
new status is `matched`, `collected`, `completed` or `cancelled`. There is no
transition validation of any kind in the source. The optional
`additionalData` merge is not modelled (no lifecycle claim passes it). -/
def updatePickupStatus (db : DB) (pickupId status now : String) :
    Except Err DB :=
  match getRec db.pickups pickupId with
  | none => .error .missingDoc
  | some p =>
    .ok { db with
      pickups := updateRec db.pickups pickupId
        { p with
          status := status
          updatedAt := now
          matchedAt := if status = "matched" then some now else p.matchedAt
          collectedAt := if status = "collected" then some now else p.collectedAt
          completedAt := if status = "completed" then some now else p.completedAt
          cancelledAt := if status = "cancelled" then some now else p.cancelledAt } }

/-- `acceptPickup(pickupId, collectorId)`: unconditional update to `matched`
with the collector set. -/
def acceptPickup (db : DB) (pickupId collectorId now : String) :
    Except Err DB :=
  match getRec db.pickups pickupId with
  | none => .error .missingDoc
  | some p =>
    .ok { db with
      pickups := updateRec db.pickups pickupId
        { p with
          collectorId := some collectorId
          status := "matched"
          matchedAt := some now
          updatedAt := now } }

/-- `createNotification(data)`: stores the caller record with `isRead` forced
to `false` (the literal written after the spread wins) and a server
timestamp. `newId` is the generated document id. -/
def createNotification (db : DB) (userId title body type_ : String)
    (data : NotifData) (isRead : Bool) (newId now : String) : DB :=
  { db with
    notifications := db.notifications ++
      [(newId,
        { userId := userId
          title := title
          body := body
          type := type_
          data := data
          isRead := some false
          createdAt := now })] }

/-- `markNotificationAsRead(notificationId)`:
`updateDoc(notifRef, \x7b isRead: true \x7d)` — sets the one field on the
addressed document, failing if it does not exist. -/
def markNotificationAsRead (db : DB) (notificationId : String) :
    Except Err DB :=
  match getRec db.notifications notificationId with
  | none => .error .missingDoc
  | some n =>
    .ok { db with
      notifications := updateRec db.notifications notificationId
        { n with isRead := some true } }

/-- The ledger description string (source: a template literal over
`pickupId.slice(0, 8)` and the weight; the exact number formatting of JS is
abstracted by `toString` on the rational). -/
def txDescription (pickupId : String) (w : ℚ) : String :=
  "Pickup #" ++ pickupId.take 8 ++ " completed - " ++ toString w ++ "kg recycled"

/-- The notification body string of an award (number formatting abstracted as
in `txDescription`). -/
def awardBody (c w : ℚ) : String :=
  "You earned " ++ toString c ++ " Green Credits for recycling " ++
    toString w ++ "kg of e-waste!"

/-- `completePickupAndAwardCredits(pickupId, actualWeightKg, actualCredits)`:
reads the pickup (throwing `Pickup not found` when absent) and commits one
batch that (1) updates the pickup to `completed` with the actual weight and
credits, (2) increments the donor profile counters, (3) appends a new credit
transaction, (4) appends a new notification. The batched profile update fails
the whole commit when the donor profile document is missing. No status check
and no sign check occurs anywhere. `newNotifId` is the generated id of the
notification document. -/
def completePickupAndAwardCredits (db : DB) (pickupId : String)
    (actualWeightKg actualCredits : ℚ) (now newNotifId : String) :
    Except Err DB :=
  match getRec db.pickups pickupId with
  | none => .error .notFound
  | some pickup =>
    match getRec db.profiles pickup.donorId with
    | none => .error .missingDoc
    | some prof =>
      .ok
        { pickups := updateRec db.pickups pickupId
            { pickup with
              status := "completed"
              actualWeightKg := some actualWeightKg
              actualCreditsAwarded := some actualCredits
              completedAt := some now
              updatedAt := now }
          pickupItems := db.pickupItems
          profiles := updateRec db.profiles pickup.donorId
            { prof with
              greenCredits := prof.greenCredits + actualCredits
              totalItemsRecycled := prof.totalItemsRecycled + pickup.totalItems
              totalWeightKg := prof.totalWeightKg + actualWeightKg
              co2SavedKg := prof.co2SavedKg + actualWeightKg * (3 / 2)
              lastActivityAt := some now
              updatedAt := now }
          transactions := db.transactions ++
            [{ userId := pickup.donorId
               amount := actualCredits
               type := "pickup_completed"
               description := txDescription pickupId actualWeightKg
               referenceId := some pickupId
               createdAt := now }]
          notifications := db.notifications ++
            [(newNotifId,
              { userId := pickup.donorId
                title := "Credits Earned!"
                body := awardBody actualCredits actualWeightKg
                type := "credit_earned"
                data := NotifData.creditEarned actualCredits pickupId
                isRead := none
                createdAt := now })] }

/-! ## Pickup form submission (PickupForm.handleSubmit in the application) -/

/-- One entry of the form item list. -/
structure FormItem where
  categoryId : String
  categoryName : String
  quantity : ℚ
  condition : String
  estimatedWeight : ℚ
  deriving Repr, DecidableEq

/-- The location section of the form. -/
structure FormLocation where
  address : String
  city : String
  state : String
  zip : String
  lat : ℚ
  lng : ℚ
  instructions : String
  deriving Repr, DecidableEq

/-- The schedule section of the form. -/
structure FormSchedule where
  date : String
  timeSlot : String
  deriving Repr, DecidableEq

/-- JS `Math.round`: round half toward positive infinity. -/
def jsRound (x : ℚ) : ℤ := ⌊x + 1 / 2⌋

/-- The request record built inside `handleSubmit` (the argument of its
`createPickup` call, with the computed totals and the server timestamps). -/
def builtPickup (userId : String) (items : List FormItem)
    (location : FormLocation) (schedule : FormSchedule) (now : String) :
    StoredPickup :=
  { donorId := userId
    collectorId := none
    pickupAddress := location.address
    pickupCity := location.city
    pickupState := location.state
    pickupZip := location.zip
    pickupLatitude := location.lat
    pickupLongitude := location.lng
    pickupInstructions := some location.instructions
    preferredDate := schedule.date
    preferredTimeSlot := schedule.timeSlot
    status := "pending"
    totalItems := items.foldl (fun s i => s + i.quantity) 0
    estimatedWeightKg := items.foldl (fun s i => s + i.estimatedWeight * i.quantity) 0
    actualWeightKg := none
    estimatedCredits :=
      (jsRound ((items.foldl (fun s i => s + i.estimatedWeight * i.quantity) 0) * 20) : ℤ)
    actualCreditsAwarded := none
    aiScanResults := none
    itemPhotos := []
    donorRating := none
    collectorRating := none
    matchedAt := none
    collectedAt := none
    completedAt := none
    cancelledAt := none
    createdAt := now
    updatedAt := now }

/-- One item record of the `addPickupItems` batch inside `handleSubmit`. -/
def builtItem (newPickupId : String) (i : FormItem) (now : String) :
    StoredPickupItem :=
  { pickupId := newPickupId
    categoryId := i.categoryId
    description := none
    quantity := i.quantity
    condition := i.condition
    estimatedWeightKg := i.estimatedWeight * i.quantity
    actualWeightKg := none
    photoUrl := none
    aiDetectedLabel := none
    aiConfidence := none
    creditsEarned := 0
    createdAt := now }

/-- `handleSubmit`: computes `totalWeight`, `totalItems` and
`estimatedCredits = Math.round(totalWeight * 20)`, calls `createPickup`
(an `addDoc` creating the request under the generated `newPickupId` in status
`pending`), then `addPickupItems` (a batch appending one item document per
form item, with per-item `estimatedWeightKg = estimatedWeight * quantity`).
No validation of the item list or the quantities happens anywhere on the
path. -/
def handleSubmit (db : DB) (userId : String) (items : List FormItem)
    (location : FormLocation) (schedule : FormSchedule)
    (newPickupId now : String) : DB :=
  { db with
    pickups := db.pickups ++
      [(newPickupId, builtPickup userId items location schedule now)]
    pickupItems := db.pickupItems ++
      items.map (fun i => builtItem newPickupId i now) }

/-- Modelled from the spec: the five-tier badge threshold table
(`badgeLevelConfig` in `@/lib/data/categories`, a module of this repository
that is not under src/). The spec fixes five ascending tiers named by the
`BadgeLevel` enum of database.ts, entry tier first, with `minCredits` and
`maxCredits` bounds per tier; the concrete boundary values are representative
since the spec states no numbers. Only the facts that the table ascends from
an entry tier containing 0 and that large balances fall in higher tiers are
used. -/
def badgeTierOf (credits : ℚ) : String :=
  if credits < 100 then "seedling"
  else if credits < 250 then "sprout"
  else if credits < 500 then "tree"
  else if credits < 1000 then "forest"
  else "earth_guardian"

/-! ## Concrete sample data used by witnesses and counterexamples -/

/-- A pickup request in state `collected`, as left by the lifecycle just
before completion. -/
def samplePickup : StoredPickup :=
  { donorId := "u1"
    collectorId := some "c1"
    pickupAddress := "12 Green St"
    pickupCity := "Chennai"
    pickupState := "TN"
    pickupZip := "600001"
    pickupLatitude := 13
    pickupLongitude := 80
    pickupInstructions := none
    preferredDate := "2025-01-10"
    preferredTimeSlot := "morning"
    status := "collected"
    totalItems := 2
    estimatedWeightKg := 2/5
    actualWeightKg := none
    estimatedCredits := 8
    actualCreditsAwarded := none
    aiScanResults := none
    itemPhotos := []
    donorRating := none
    collectorRating := none
    matchedAt := some "t2"
    collectedAt := some "t5"
    completedAt := none
    cancelledAt := none
    createdAt := "t0"
    updatedAt := "t5" }

/-- The same request already `completed` once (for the replay scenario). -/
def samplePickupDone : StoredPickup :=
  { samplePickup with
    status := "completed"
    actualWeightKg := some (1/2)
    actualCreditsAwarded := some 12
    completedAt := some "t6"
    updatedAt := "t6" }

/-- The same request still `pending` (for the skip scenario). -/
def samplePickupPending : StoredPickup :=
  { samplePickup with
    status := "pending"
    collectorId := none
    matchedAt := none
    collectedAt := none
    updatedAt := "t0" }

/-- A freshly created donor profile with zero baselines. -/
def sampleProfile : StoredProfile :=
  { id := "u1"
    email := "donor@example.com"
    fullName := "Donor One"
    avatarUrl := none
    role := "donor"
    greenCredits := 0
    totalItemsRecycled := 0
    totalWeightKg := 0
    co2SavedKg := 0
    streakDays := 0
    badgeLevel := "seedling"
    isVerified := false
    lastActivityAt := none
    createdAt := "t0"
    updatedAt := "t0" }

/-- The same profile holding a balance of 100 credits. -/
def sampleProfile100 : StoredProfile :=
  { sampleProfile with greenCredits := 100 }

/-- A stored notification, initially unread. -/
def sampleNotification : StoredNotification :=
  { userId := "u1"
    title := "Welcome"
    body := "Hello"
    type := "welcome"
    data := NotifData.raw "x"
    isRead := some false
    createdAt := "t0" }

def dbEmpty : DB :=
  { pickups := [], pickupItems := [], profiles := [], transactions := [],
    notifications := [] }

/-- A database holding one collected pickup and its donor profile. -/
def dbW : DB :=
  { pickups := [("p1", samplePickup)]
    pickupItems := []
    profiles := [("u1", sampleProfile)]
    transactions := []
    notifications := [("n0", sampleNotification)] }

/-- A database holding an already-completed pickup (replay scenario). -/
def dbDone : DB :=
  { pickups := [("p1", samplePickupDone)]
    pickupItems := []
    profiles := [("u1", sampleProfile100)]
    transactions := []
    notifications := [] }

/-- A database holding a pending pickup (skip scenario). -/
def dbPending : DB :=
  { pickups := [("p3", samplePickupPending)]
    pickupItems := []
    profiles := [("u1", sampleProfile)]
    transactions := []
    notifications := [] }

def loc0 : FormLocation :=
  { address := "12 Green St", city := "Chennai", state := "TN"
    zip := "600001", lat := 13, lng := 80, instructions := "ring bell" }

def sched0 : FormSchedule := { date := "2025-01-10", timeSlot := "morning" }

/-- The spec worked example: one item, quantity 2, estimated 0.2 kg each. -/
def exampleItem : FormItem :=
  { categoryId := "smartphones"
    categoryName := "Smartphones & Tablets"
    quantity := 2
    condition := "working"
    estimatedWeight := 1/5 }

/-- A full run of the public operations: profile creation, request creation,
collector acceptance, the forward stages, and a completion awarding 5000
credits. Used to exhibit reachable states. -/
def demoRun : Except Err DB :=
  let db1 := createProfile dbEmpty "u1" "donor@example.com" "Donor One" none "t0"
  let db2 := handleSubmit db1 "u1" [exampleItem] loc0 sched0 "p1" "t1"
  do
    let db3 ← acceptPickup db2 "p1" "c1" "t2"
    let db4 ← updatePickupStatus db3 "p1" "collector_enroute" "t3"
    let db5 ← updatePickupStatus db4 "p1" "arrived" "t4"
    let db6 ← updatePickupStatus db5 "p1" "inspecting" "t5"
    let db7 ← updatePickupStatus db6 "p1" "collected" "t6"
    completePickupAndAwardCredits db7 "p1" (1/2) 5000 "t7" "n1"

/-! ## Association list lemmas -/

theorem getRec_updateRec_self {α : Type} (l : List (String × α)) (k : String)
    (v w : α) (h : getRec l k = some v) :
    getRec (updateRec l k w) k = some w := by
  induction l with
  | nil => simp [getRec] at h
  | cons a t ih =>
    by_cases hk : a.1 = k
    · simp [getRec, updateRec, hk]
    · simp [getRec, updateRec, hk] at h ⊢
      exact ih h

theorem getRec_updateRec_ne {α : Type} (l : List (String × α)) (k k' : String)
    (w : α) (h : k' ≠ k) :
    getRec (updateRec l k w) k' = getRec l k' := by
  induction l with
  | nil => simp [updateRec]
  | cons a t ih =>
    by_cases hk : a.1 = k
    · simp [getRec, updateRec, hk, Ne.symm h]
    · by_cases hk' : a.1 = k' <;> simp [getRec, updateRec, hk, hk', ih, h]

theorem getRec_append_fresh {α : Type} (l : List (String × α)) (k : String)
    (v : α) (h : getRec l k = none) :
    getRec (l ++ [(k, v)]) k = some v := by
  induction l with
  | nil => simp [getRec]
  | cons a t ih =>
    by_cases hk : a.1 = k
    · simp [getRec, hk] at h
    · simp [getRec, hk] at h ⊢
      exact ih h

theorem getRec_append_ne {α : Type} (l : List (String × α)) (k k' : String)
    (v : α) (h : k' ≠ k) :
    getRec (l ++ [(k, v)]) k' = getRec l k' := by
  induction l with
  | nil => simp [getRec, Ne.symm h]
  | cons a t ih =>
    by_cases hk : a.1 = k' <;> simp [getRec, hk, ih]

/-! ## Scan restructuring lemmas for the classifier -/

theorem findSome?_map_inner {α β γ : Type} (l : List α) (g : α → Option β)
    (f : β → γ) :
    l.findSome? (fun x => (g x).map f) = (l.findSome? g).map f := by
  induction l with
  | nil => simp
  | cons a t ih =>
    cases h : g a with
    | none =>
      rw [List.findSome?_cons_of_isNone, List.findSome?_cons_of_isNone, ih] <;>
        simp [h]
    | some b =>
      rw [List.findSome?_cons_of_isSome, List.findSome?_cons_of_isSome] <;>
        simp [h]

theorem findSome?_const_none {α β : Type} (l : List α) :
    l.findSome? (fun _ => (none : Option β)) = none := by
  induction l with
  | nil => rfl
  | cons a t ih => rw [List.findSome?_cons_of_isNone, ih]; rfl

theorem ungatedInner_eq (pred : Prediction) :
    ((normalizeWords pred.className).findSome? (fun word =>
      ewasteLabelMap.findSome? (fun e =>
        if predWordHit word e.1 then some (pred, e.2.1, e.2.2) else none))) =
    (predMatch pred).map (fun cs => (pred, cs.1, cs.2)) := by
  unfold predMatch
  rw [← findSome?_map_inner (normalizeWords pred.className)
    (fun word => ewasteLabelMap.findSome? (fun e =>
      if predWordHit word e.1 then some (e.2.1, e.2.2) else none))
    (fun cs => (pred, cs.1, cs.2))]
  congr 1
  funext word
  rw [← findSome?_map_inner ewasteLabelMap
    (fun e => if predWordHit word e.1 then some (e.2.1, e.2.2) else none)
    (fun cs => (pred, cs.1, cs.2))]
  congr 1
  funext e
  by_cases h : predWordHit word e.1 <;> simp [h]

theorem gatedInner_eq (pred : Prediction) :
    ((normalizeWords pred.className).findSome? (fun word =>
      ewasteLabelMap.findSome? (fun e =>
        if predWordHit word e.1 ∧ (1 : ℚ)/10 < pred.probability then
          some (pred, e.2.1, e.2.2)
        else none))) =
    if (1 : ℚ)/10 < pred.probability then
      (predMatch pred).map (fun cs => (pred, cs.1, cs.2))
    else none := by
  by_cases hp : (1 : ℚ)/10 < pred.probability
  · simp only [hp, and_true, if_true]
    exact ungatedInner_eq pred
  · simp only [hp, and_false, if_false, findSome?_const_none]

theorem findSome?_cons_eq {α β : Type} (f : α → Option β) (a : α)
    (l : List α) :
    (a :: l).findSome? f =
      match f a with
      | some b => some b
      | none => l.findSome? f := by
  cases h : f a with
  | some b => rw [List.findSome?_cons_of_isSome l (by simp [h]), h]
  | none => rw [List.findSome?_cons_of_isNone l (by simp [h])]

theorem firstHit_cons (a : Prediction) (t : List Prediction) :
    firstHit (a :: t) =
      match predMatch a with
      | some cs => some (a, cs.1, cs.2)
      | none => firstHit t := by
  simp only [firstHit, findSome?_cons_eq, ungatedInner_eq]
  cases predMatch a <;> simp

theorem scanHit_cons (a : Prediction) (t : List Prediction) :
    scanHit (a :: t) =
      match (if (1 : ℚ)/10 < a.probability then predMatch a else none) with
      | some cs => some (a, cs.1, cs.2)
      | none => scanHit t := by
  simp only [scanHit, findSome?_cons_eq, gatedInner_eq]
  by_cases hp : (1 : ℚ)/10 < a.probability
  · rw [if_pos hp, if_pos hp]
    cases predMatch a <;> simp
  · rw [if_neg hp, if_neg hp]

theorem scanHit_of_firstHit (preds : List Prediction) (p : Prediction)
    (cat slug : String) (h : firstHit preds = some (p, cat, slug))
    (hp : (1 : ℚ)/10 < p.probability) :
    scanHit preds = some (p, cat, slug) := by
  induction preds with
  | nil => simp [firstHit] at h
  | cons a t ih =>
    rw [firstHit_cons] at h
    rw [scanHit_cons]
    cases hm : predMatch a with
    | some cs =>
      rw [hm] at h
      have h' : some (a, cs.1, cs.2) = some (p, cat, slug) := h
      obtain ⟨rfl, rfl⟩ : a = p ∧ cs = (cat, slug) := by
        simpa using h'
      rw [if_pos hp]
    | none =>
      rw [hm] at h
      rw [ite_self]
      exact ih h

theorem scanHit_eq_none_of_no_hit (preds : List Prediction)
    (h : ∀ p ∈ preds, (1 : ℚ)/10 < p.probability →
      ∀ w ∈ normalizeWords p.className, ∀ e ∈ ewasteLabelMap,
        predWordHit w e.1 = false) :
    scanHit preds = none := by
  induction preds with
  | nil => simp [scanHit]
  | cons a t ih =>
    rw [scanHit_cons]
    have ht : scanHit t = none := ih (fun p hp => h p (List.mem_cons_of_mem a hp))
    by_cases hp : (1 : ℚ)/10 < a.probability
    · have hm : predMatch a = none := by
        unfold predMatch
        refine List.findSome?_eq_none_iff.mpr ?_
        intro w hw
        refine List.findSome?_eq_none_iff.mpr ?_
        intro e he
        have hfalse := h a (List.mem_cons_self a t) hp w hw e he
        simp [hfalse]
      rw [if_pos hp, hm]
      exact ht
    · rw [if_neg hp]
      exact ht

/-- C6: if the first (prediction, word, key) hit of the scan — predictions
outer, words middle, map keys inner — belongs to a prediction whose
probability exceeds the 0.10 threshold, `classify` returns the positive
decision carrying exactly that prediction's original label and probability,
`isEwaste = true`, the mapped category and slug, and the full prediction
list as evidence, regardless of the raw probabilities of later
predictions. -/
theorem classify_first_hit_positive (preds : List Prediction) (p : Prediction)
    (cat slug : String) (h : firstHit preds = some (p, cat, slug))
    (hp : (1 : ℚ)/10 < p.probability) :
    classify preds =
      { label := p.className
        confidence := p.probability
        isEwaste := true
        category := some cat
        categorySlug := some slug
        allPredictions := preds } := by
  unfold classify
  rw [scanHit_of_firstHit preds p cat slug h hp]

theorem classify_first_hit_positive_witness :
    firstHit [⟨"cellular telephone", 1/2⟩, ⟨"laptop", 9/10⟩] =
      some (⟨"cellular telephone", 1/2⟩, "Smartphones & Tablets",
        "smartphones") ∧
    (1 : ℚ)/10 < ((⟨"cellular telephone", 1/2⟩ : Prediction)).probability ∧
    classify [⟨"cellular telephone", 1/2⟩, ⟨"laptop", 9/10⟩] =
      { label := "cellular telephone"
        confidence := 1/2
        isEwaste := true
        category := some "Smartphones & Tablets"
        categorySlug := some "smartphones"
        allPredictions := [⟨"cellular telephone", 1/2⟩, ⟨"laptop", 9/10⟩] } := by
  have hpm : predMatch ⟨"cellular telephone", (1 : ℚ)/2⟩ =
      some ("Smartphones & Tablets", "smartphones") := by decide
  have hf : firstHit [⟨"cellular telephone", 1/2⟩, ⟨"laptop", 9/10⟩] =
      some (⟨"cellular telephone", 1/2⟩, "Smartphones & Tablets",
        "smartphones") := by
    rw [firstHit_cons, hpm]
  have hp : (1 : ℚ)/10 <
      ((⟨"cellular telephone", 1/2⟩ : Prediction)).probability := by
    show (1 : ℚ)/10 < 1/2
    norm_num
  exact ⟨hf, hp, classify_first_hit_positive _ _ _ _ hf hp⟩

/-- C7 (amended): when no mapping keyword matches any normalized word of a
prediction above the 0.10 threshold, `classify` returns a negative decision
with `isEwaste = false`, null category and slug, and the top-ranked
prediction's label and probability — except that for the empty list the
sentinel label `Unknown` with confidence 0 is returned, and when the
top-ranked label is the empty string the label falls back to the sentinel
`Unknown` as well (its probability is still returned). `classify` is a total
function and never raises. -/
theorem classify_no_gated_match_negative (preds : List Prediction)
    (h : ∀ p ∈ preds, (1 : ℚ)/10 < p.probability →
      ∀ w ∈ normalizeWords p.className, ∀ e ∈ ewasteLabelMap,
        predWordHit w e.1 = false) :
    classify preds =
      { label :=
          match preds.head? with
          | some p => if p.className = "" then "Unknown" else p.className
          | none => "Unknown"
        confidence := (preds.head?.map Prediction.probability).getD 0
        isEwaste := false
        category := none
        categorySlug := none
        allPredictions := preds } := by
  unfold classify
  rw [scanHit_eq_none_of_no_hit preds h]

theorem classify_no_gated_match_negative_witness :
    (∀ p ∈ [Prediction.mk "golden retriever" (4/5)],
      (1 : ℚ)/10 < p.probability →
      ∀ w ∈ normalizeWords p.className, ∀ e ∈ ewasteLabelMap,
        predWordHit w e.1 = false) ∧
    classify [Prediction.mk "golden retriever" (4/5)] =
      { label := "golden retriever"
        confidence := 4/5
        isEwaste := false
        category := none
        categorySlug := none
        allPredictions := [Prediction.mk "golden retriever" (4/5)] } := by
  have h1 : ∀ p ∈ [Prediction.mk "golden retriever" (4/5)],
      (1 : ℚ)/10 < p.probability →
      ∀ w ∈ normalizeWords p.className, ∀ e ∈ ewasteLabelMap,
        predWordHit w e.1 = false := by
    intro p hp hprob
    simp only [List.mem_singleton] at hp
    subst hp
    decide
  refine ⟨h1, ?_⟩
  rw [classify_no_gated_match_negative _ h1]
  rfl

/-- C7 counterexample: a singleton list whose only prediction has the empty
string as label and probability 1/20 satisfies the no-match-above-threshold
hypothesis, yet `classify` returns the sentinel label `Unknown` rather than
the top-ranked (empty) label, because `predictions[0]?.className ||
'Unknown'` treats the empty string as falsy. -/
theorem classify_counterexample_empty_label :
    (∀ p ∈ [Prediction.mk "" (1/20)], (1 : ℚ)/10 < p.probability →
      ∀ w ∈ normalizeWords p.className, ∀ e ∈ ewasteLabelMap,
        predWordHit w e.1 = false) ∧
    [Prediction.mk "" (1/20)].head?.map Prediction.className = some "" ∧
    (classify [Prediction.mk "" (1/20)]).isEwaste = false ∧
    (classify [Prediction.mk "" (1/20)]).label = "Unknown" ∧
    (classify [Prediction.mk "" (1/20)]).label ≠ "" := by
  have h1 : ∀ p ∈ [Prediction.mk "" (1/20)], (1 : ℚ)/10 < p.probability →
      ∀ w ∈ normalizeWords p.className, ∀ e ∈ ewasteLabelMap,
        predWordHit w e.1 = false := by
    intro p hp hprob
    simp only [List.mem_singleton] at hp
    subst hp
    exact absurd hprob (by norm_num)
  have hs := scanHit_eq_none_of_no_hit _ h1
  have hc : classify [Prediction.mk "" (1/20)] =
      { label := "Unknown"
        confidence := 1/20
        isEwaste := false
        category := none
        categorySlug := none
        allPredictions := [Prediction.mk "" (1/20)] } := by
    unfold classify
    rw [hs]
    rfl
  refine ⟨h1, rfl, by rw [hc], by rw [hc], by rw [hc]; decide⟩

/-! ## Service lemmas and claim theorems -/

theorem getRec_setRec_self {α : Type} (l : List (String × α)) (k : String)
    (v : α) : getRec (setRec l k v) k = some v := by
  unfold setRec
  cases h : getRec l k with
  | some w => exact getRec_updateRec_self l k w v h
  | none => exact getRec_append_fresh l k v h

theorem foldl_add_eq_sum {α : Type} (f : α → ℚ) (l : List α) (init : ℚ) :
    l.foldl (fun s i => s + f i) init = init + (l.map f).sum := by
  induction l generalizing init with
  | nil => simp
  | cons a t ih => simp [ih, add_assoc]

/-- C2: a successful `completePickupAndAwardCredits(pickupId, w, c)` call
mutates exactly four records in its single batched commit: the request gets
status `completed` with `actualWeightKg = w` and `actualCreditsAwarded = c`
(and the completion timestamps); the donor profile gains exactly `c` green
credits, the request's `totalItems` recycled items, `w` kilograms and
`w * 1.5` kilograms of saved CO2; exactly one new CreditTransaction with
`amount = c` referencing the request is appended; and exactly one new
Notification addressed to the donor is appended. All other pickups, all
other profiles and all pickup items are untouched. -/
theorem completePickup_effects (db : DB) (pickupId : String) (w c : ℚ)
    (now nid : String) (pickup : StoredPickup) (prof : StoredProfile)
    (hp : getRec db.pickups pickupId = some pickup)
    (hprof : getRec db.profiles pickup.donorId = some prof) :
    ∃ db', completePickupAndAwardCredits db pickupId w c now nid = .ok db' ∧
      getRec db'.pickups pickupId = some
        { pickup with
          status := "completed"
          actualWeightKg := some w
          actualCreditsAwarded := some c
          completedAt := some now
          updatedAt := now } ∧
      (∀ k, k ≠ pickupId → getRec db'.pickups k = getRec db.pickups k) ∧
      getRec db'.profiles pickup.donorId = some
        { prof with
          greenCredits := prof.greenCredits + c
          totalItemsRecycled := prof.totalItemsRecycled + pickup.totalItems
          totalWeightKg := prof.totalWeightKg + w
          co2SavedKg := prof.co2SavedKg + w * (3 / 2)
          lastActivityAt := some now
          updatedAt := now } ∧
      (∀ u, u ≠ pickup.donorId → getRec db'.profiles u = getRec db.profiles u) ∧
      db'.transactions = db.transactions ++
        [{ userId := pickup.donorId
           amount := c
           type := "pickup_completed"
           description := txDescription pickupId w
           referenceId := some pickupId
           createdAt := now }] ∧
      db'.notifications = db.notifications ++
        [(nid,
          { userId := pickup.donorId
            title := "Credits Earned!"
            body := awardBody c w
            type := "credit_earned"
            data := NotifData.creditEarned c pickupId
            isRead := none
            createdAt := now })] ∧
      db'.pickupItems = db.pickupItems := by
  unfold completePickupAndAwardCredits
  simp only [hp, hprof]
  refine ⟨_, rfl, ?_, ?_, ?_, ?_, rfl, rfl, rfl⟩
  · exact getRec_updateRec_self _ _ _ _ hp
  · intro k hk
    exact getRec_updateRec_ne _ _ _ _ hk
  · exact getRec_updateRec_self _ _ _ _ hprof
  · intro u hu
    exact getRec_updateRec_ne _ _ _ _ hu

theorem completePickup_effects_witness :
    getRec dbW.pickups "p1" = some samplePickup ∧
    getRec dbW.profiles samplePickup.donorId = some sampleProfile ∧
    (∃ db', completePickupAndAwardCredits dbW "p1" (1/2) 12 "t6" "n1" =
        .ok db' ∧
      getRec db'.pickups "p1" = some
        { samplePickup with
          status := "completed"
          actualWeightKg := some (1/2)
          actualCreditsAwarded := some 12
          completedAt := some "t6"
          updatedAt := "t6" } ∧
      (∀ k, k ≠ "p1" → getRec db'.pickups k = getRec dbW.pickups k) ∧
      getRec db'.profiles samplePickup.donorId = some
        { sampleProfile with
          greenCredits := sampleProfile.greenCredits + 12
          totalItemsRecycled :=
            sampleProfile.totalItemsRecycled + samplePickup.totalItems
          totalWeightKg := sampleProfile.totalWeightKg + 1/2
          co2SavedKg := sampleProfile.co2SavedKg + 1/2 * (3 / 2)
          lastActivityAt := some "t6"
          updatedAt := "t6" } ∧
      (∀ u, u ≠ samplePickup.donorId →
        getRec db'.profiles u = getRec dbW.profiles u) ∧
      db'.transactions = dbW.transactions ++
        [{ userId := samplePickup.donorId
           amount := 12
           type := "pickup_completed"
           description := txDescription "p1" (1/2)
           referenceId := some "p1"
           createdAt := "t6" }] ∧
      db'.notifications = dbW.notifications ++
        [("n1",
          { userId := samplePickup.donorId
            title := "Credits Earned!"
            body := awardBody 12 (1/2)
            type := "credit_earned"
            data := NotifData.creditEarned 12 "p1"
            isRead := none
            createdAt := "t6" })] ∧
      db'.pickupItems = dbW.pickupItems) :=
  ⟨rfl, rfl,
    completePickup_effects dbW "p1" (1/2) 12 "t6" "n1" samplePickup
      sampleProfile rfl rfl⟩

/-- C1 (amended): `completePickupAndAwardCredits` performs no status check
whatever: called again on a request that is already `completed` it succeeds
(the source can only fail with `Pickup not found`), appends a further
CreditTransaction and adds the credit amount to the donor balance again.
There is no InvalidTransition path and no `collected`-only precondition. -/
theorem completePickup_replay_succeeds (db : DB) (pickupId : String)
    (w c : ℚ) (now nid : String) (pickup : StoredPickup)
    (prof : StoredProfile) (hstatus : pickup.status = "completed")
    (hp : getRec db.pickups pickupId = some pickup)
    (hprof : getRec db.profiles pickup.donorId = some prof) :
    ∃ db', completePickupAndAwardCredits db pickupId w c now nid = .ok db' ∧
      db'.transactions.length = db.transactions.length + 1 ∧
      (getRec db'.profiles pickup.donorId).map StoredProfile.greenCredits =
        some (prof.greenCredits + c) := by
  unfold completePickupAndAwardCredits
  simp only [hp, hprof]
  refine ⟨_, rfl, by simp, ?_⟩
  rw [getRec_updateRec_self _ _ _ _ hprof]
  rfl

theorem completePickup_replay_witness :
    samplePickupDone.status = "completed" ∧
    getRec dbDone.pickups "p1" = some samplePickupDone ∧
    getRec dbDone.profiles samplePickupDone.donorId = some sampleProfile100 ∧
    (∃ db', completePickupAndAwardCredits dbDone "p1" (1/2) 12 "t8" "n2" =
        .ok db' ∧
      db'.transactions.length = dbDone.transactions.length + 1 ∧
      (getRec db'.profiles samplePickupDone.donorId).map
        StoredProfile.greenCredits =
        some (sampleProfile100.greenCredits + 12)) :=
  ⟨rfl, rfl, rfl,
    completePickup_replay_succeeds dbDone "p1" (1/2) 12 "t8" "n2"
      samplePickupDone sampleProfile100 rfl rfl rfl⟩

/-- C1 counterexample: calling the completion operation on the
already-completed request `p1` of `dbDone` succeeds — it does not fail with
InvalidTransition — and it appends a second CreditTransaction and changes
the donor balance again. -/
theorem completePickup_replay_counterexample :
    samplePickupDone.status = "completed" ∧
    (completePickupAndAwardCredits dbDone "p1" 2 10 "t9" "n3").map
      (fun d => d.transactions.length) = .ok 1 ∧
    (completePickupAndAwardCredits dbDone "p1" 2 10 "t9" "n3").map
      (fun d => (getRec d.profiles "u1").map StoredProfile.greenCredits) =
      .ok (some (sampleProfile100.greenCredits + 10)) ∧
    sampleProfile100.greenCredits + 10 ≠ sampleProfile100.greenCredits := by
  refine ⟨rfl, rfl, rfl, ?_⟩
  norm_num [sampleProfile100, sampleProfile]

/-- C9 (amended): the operation performs no sign validation: a negative
weight and a negative credit amount are accepted and applied in full — the
stored weight becomes the negative value and the balance strictly decreases
— and no ValidationError path exists in the source. -/
theorem completePickup_negative_accepted (db : DB) (pickupId : String)
    (w c : ℚ) (now nid : String) (pickup : StoredPickup)
    (prof : StoredProfile) (hw : w < 0) (hc : c < 0)
    (hp : getRec db.pickups pickupId = some pickup)
    (hprof : getRec db.profiles pickup.donorId = some prof) :
    ∃ db', completePickupAndAwardCredits db pickupId w c now nid = .ok db' ∧
      (getRec db'.pickups pickupId).map StoredPickup.actualWeightKg =
        some (some w) ∧
      (getRec db'.profiles pickup.donorId).map StoredProfile.greenCredits =
        some (prof.greenCredits + c) ∧
      prof.greenCredits + c < prof.greenCredits := by
  unfold completePickupAndAwardCredits
  simp only [hp, hprof]
  refine ⟨_, rfl, ?_, ?_, by linarith⟩
  · rw [getRec_updateRec_self _ _ _ _ hp]
    rfl
  · rw [getRec_updateRec_self _ _ _ _ hprof]
    rfl

theorem completePickup_negative_witness :
    ((-1 : ℚ) < 0) ∧ ((-5 : ℚ) < 0) ∧
    getRec dbW.pickups "p1" = some samplePickup ∧
    getRec dbW.profiles samplePickup.donorId = some sampleProfile ∧
    (∃ db', completePickupAndAwardCredits dbW "p1" (-1) (-5) "t6" "n1" =
        .ok db' ∧
      (getRec db'.pickups "p1").map StoredPickup.actualWeightKg =
        some (some (-1)) ∧
      (getRec db'.profiles samplePickup.donorId).map
        StoredProfile.greenCredits =
        some (sampleProfile.greenCredits + (-5)) ∧
      sampleProfile.greenCredits + (-5) < sampleProfile.greenCredits) :=
  ⟨by norm_num, by norm_num, rfl, rfl,
    completePickup_negative_accepted dbW "p1" (-1) (-5) "t6" "n1"
      samplePickup sampleProfile (by norm_num) (by norm_num) rfl rfl⟩

/-- C9 counterexample: with weight `-1` and credits `-5` the completion call
on the collected request of `dbW` succeeds and the stored donor balance
decreases, instead of being rejected with ValidationError with no effect. -/
theorem completePickup_negative_counterexample :
    ((-1 : ℚ) < 0 ∧ (-5 : ℚ) < 0) ∧
    (completePickupAndAwardCredits dbW "p1" (-1) (-5) "t6" "n9").map
      (fun d => (getRec d.profiles "u1").map StoredProfile.greenCredits) =
      .ok (some (sampleProfile.greenCredits + (-5))) ∧
    sampleProfile.greenCredits + (-5) < sampleProfile.greenCredits := by
  refine ⟨by norm_num, rfl, ?_⟩
  norm_num [sampleProfile]

/-- C3 (amended): `updatePickupStatus` validates nothing: for every existing
request and every requested status string — including skipped stages,
re-entries, and departures from the terminal states — it succeeds and
unconditionally stores exactly the requested status, stamping the matching
transition timestamp; it fails only when the request document is missing. -/
theorem updatePickupStatus_unvalidated (db : DB)
    (pickupId status now : String) (p : StoredPickup)
    (hp : getRec db.pickups pickupId = some p) :
    ∃ db', updatePickupStatus db pickupId status now = .ok db' ∧
      (getRec db'.pickups pickupId).map StoredPickup.status = some status := by
  unfold updatePickupStatus
  simp only [hp]
  refine ⟨_, rfl, ?_⟩
  rw [getRec_updateRec_self _ _ _ _ hp]
  rfl

theorem updatePickupStatus_unvalidated_witness :
    getRec dbW.pickups "p1" = some samplePickup ∧
    (∃ db', updatePickupStatus dbW "p1" "arrived" "t9" = .ok db' ∧
      (getRec db'.pickups "p1").map StoredPickup.status = some "arrived") :=
  ⟨rfl, updatePickupStatus_unvalidated dbW "p1" "arrived" "t9" samplePickup rfl⟩

/-- C3 counterexample: the `pending` request `p3`, advanced directly to
`collected`, succeeds and its stored status becomes `collected` (with
`collectedAt` stamped) — it does not fail with InvalidTransition and does
not remain `pending`. -/
theorem updatePickupStatus_skip_counterexample :
    samplePickupPending.status = "pending" ∧
    (updatePickupStatus dbPending "p3" "collected" "t3").map
      (fun d => (getRec d.pickups "p3").map StoredPickup.status) =
      .ok (some "collected") ∧
    (updatePickupStatus dbPending "p3" "collected" "t3").map
      (fun d => (getRec d.pickups "p3").map StoredPickup.collectedAt) =
      .ok (some (some "t3")) :=
  ⟨rfl, rfl, rfl⟩

/-- C4 (amended): no validation precedes the writes: `handleSubmit` and the
underlying `createPickup` never raise ValidationError. With an empty item
list the PickupRequest is still created — in `pending`, with
`totalItems = 0`, `estimatedWeightKg = 0` and `estimatedCredits = 0` — and
no PickupItem record is created; item quantities below 1 are likewise
accepted and stored unchanged. -/
theorem handleSubmit_no_validation (db : DB) (userId : String)
    (location : FormLocation) (schedule : FormSchedule)
    (newPickupId now : String)
    (hfresh : getRec db.pickups newPickupId = none) :
    ∃ p, getRec (handleSubmit db userId [] location schedule
        newPickupId now).pickups newPickupId = some p ∧
      p.status = "pending" ∧ p.totalItems = 0 ∧ p.estimatedWeightKg = 0 ∧
      p.estimatedCredits = 0 ∧
      (handleSubmit db userId [] location schedule newPickupId now).pickupItems
        = db.pickupItems := by
  refine ⟨builtPickup userId [] location schedule now, ?_, rfl, rfl, rfl, ?_,
    by simp [handleSubmit]⟩
  · exact getRec_append_fresh _ _ _ hfresh
  · norm_num [builtPickup, jsRound]

theorem handleSubmit_no_validation_witness :
    getRec dbEmpty.pickups "p1" = none ∧
    (∃ p, getRec (handleSubmit dbEmpty "u1" [] loc0 sched0 "p1" "t0").pickups
        "p1" = some p ∧
      p.status = "pending" ∧ p.totalItems = 0 ∧ p.estimatedWeightKg = 0 ∧
      p.estimatedCredits = 0 ∧
      (handleSubmit dbEmpty "u1" [] loc0 sched0 "p1" "t0").pickupItems =
        dbEmpty.pickupItems) :=
  ⟨rfl, handleSubmit_no_validation dbEmpty "u1" loc0 sched0 "p1" "t0" rfl⟩

/-- C4 counterexample: submitting an empty item list succeeds and creates a
pending PickupRequest — there is no ValidationError and no write is
prevented. -/
theorem createPickup_empty_items_counterexample :
    (handleSubmit dbEmpty "u1" [] loc0 sched0 "p1" "t0").pickups.length = 1 ∧
    (getRec (handleSubmit dbEmpty "u1" [] loc0 sched0 "p1" "t0").pickups
      "p1").map StoredPickup.status = some "pending" ∧
    (getRec (handleSubmit dbEmpty "u1" [] loc0 sched0 "p1" "t0").pickups
      "p1").map StoredPickup.totalItems = some 0 :=
  ⟨rfl, rfl, rfl⟩

/-- C8: for every submission with a non-empty item list the created
PickupRequest has status `pending`, `totalItems` equal to the sum of the
item quantities, `estimatedWeightKg` equal to the sum over items of per-unit
estimated weight times quantity, and
`estimatedCredits = round(estimatedWeightKg * 20)` under JS `Math.round`
(floor of the value plus one half). -/
theorem handleSubmit_computed_fields (db : DB) (userId : String)
    (items : List FormItem) (location : FormLocation)
    (schedule : FormSchedule) (newPickupId now : String)
    (hne : items ≠ []) (hfresh : getRec db.pickups newPickupId = none) :
    ∃ p, getRec (handleSubmit db userId items location schedule
        newPickupId now).pickups newPickupId = some p ∧
      p.status = "pending" ∧
      p.totalItems = (items.map FormItem.quantity).sum ∧
      p.estimatedWeightKg =
        (items.map (fun i => i.estimatedWeight * i.quantity)).sum ∧
      p.estimatedCredits =
        ((jsRound ((items.map (fun i => i.estimatedWeight * i.quantity)).sum
          * 20) : ℤ) : ℚ) := by
  refine ⟨builtPickup userId items location schedule now,
    getRec_append_fresh _ _ _ hfresh, rfl, ?_, ?_, ?_⟩
  · show items.foldl (fun s i => s + i.quantity) 0 = _
    rw [foldl_add_eq_sum FormItem.quantity items 0, zero_add]
  · show items.foldl (fun s i => s + i.estimatedWeight * i.quantity) 0 = _
    rw [foldl_add_eq_sum (fun i => i.estimatedWeight * i.quantity) items 0,
      zero_add]
  · show ((jsRound ((items.foldl
        (fun s i => s + i.estimatedWeight * i.quantity) 0) * 20) : ℤ) : ℚ) = _
    rw [foldl_add_eq_sum (fun i => i.estimatedWeight * i.quantity) items 0,
      zero_add]

theorem handleSubmit_computed_fields_witness :
    ([exampleItem] ≠ ([] : List FormItem)) ∧
    getRec dbEmpty.pickups "p2" = none ∧
    (∃ p, getRec (handleSubmit dbEmpty "u1" [exampleItem] loc0 sched0 "p2"
        "t0").pickups "p2" = some p ∧
      p.status = "pending" ∧
      p.totalItems = ([exampleItem].map FormItem.quantity).sum ∧
      p.estimatedWeightKg =
        ([exampleItem].map (fun i => i.estimatedWeight * i.quantity)).sum ∧
      p.estimatedCredits =
        ((jsRound (([exampleItem].map
          (fun i => i.estimatedWeight * i.quantity)).sum * 20) : ℤ) : ℚ)) ∧
    ([exampleItem].map FormItem.quantity).sum = 2 ∧
    ([exampleItem].map (fun i => i.estimatedWeight * i.quantity)).sum = 2/5 ∧
    ((jsRound (([exampleItem].map
      (fun i => i.estimatedWeight * i.quantity)).sum * 20) : ℤ) : ℚ) = 8 := by
  refine ⟨by simp, rfl,
    handleSubmit_computed_fields dbEmpty "u1" [exampleItem] loc0 sched0 "p2"
      "t0" (by simp) rfl, ?_, ?_, ?_⟩
  · norm_num [exampleItem]
  · norm_num [exampleItem]
  · norm_num [exampleItem, jsRound]

/-- C5 (amended): `badgeLevel` is stored, not derived: `createProfile`
stores the entry tier `seedling` (consistent with the zero balance it also
stores), and the credit award never recomputes the field — the stored tier
is unchanged by `completePickupAndAwardCredits` whatever the new balance
becomes — so after an award moving the balance beyond the entry tier the
stored `badgeLevel` no longer matches the tier of the threshold table
containing the balance. -/
theorem badgeLevel_never_recomputed (db db2 : DB) (u2 email2 name2 : String)
    (av : Option String) (now2 : String) (pickupId : String) (w c : ℚ)
    (now nid : String) (pickup : StoredPickup) (prof : StoredProfile)
    (hp : getRec db.pickups pickupId = some pickup)
    (hprof : getRec db.profiles pickup.donorId = some prof) :
    ((getRec (createProfile db2 u2 email2 name2 av now2).profiles u2).map
      StoredProfile.badgeLevel = some "seedling") ∧
    (∃ db', completePickupAndAwardCredits db pickupId w c now nid =
        .ok db' ∧
      (getRec db'.profiles pickup.donorId).map StoredProfile.badgeLevel =
        some prof.badgeLevel ∧
      (getRec db'.profiles pickup.donorId).map StoredProfile.greenCredits =
        some (prof.greenCredits + c)) := by
  constructor
  · simp only [createProfile]
    rw [getRec_setRec_self]
    rfl
  · unfold completePickupAndAwardCredits
    simp only [hp, hprof]
    refine ⟨_, rfl, ?_, ?_⟩ <;>
      rw [getRec_updateRec_self _ _ _ _ hprof] <;> rfl

theorem badgeLevel_never_recomputed_witness :
    getRec dbW.pickups "p1" = some samplePickup ∧
    getRec dbW.profiles samplePickup.donorId = some sampleProfile ∧
    (((getRec (createProfile dbEmpty "u2" "e2" "N2" none "t0").profiles
        "u2").map StoredProfile.badgeLevel = some "seedling") ∧
    (∃ db', completePickupAndAwardCredits dbW "p1" (1/2) 5000 "t6" "n1" =
        .ok db' ∧
      (getRec db'.profiles samplePickup.donorId).map
        StoredProfile.badgeLevel = some sampleProfile.badgeLevel ∧
      (getRec db'.profiles samplePickup.donorId).map
        StoredProfile.greenCredits =
        some (sampleProfile.greenCredits + 5000))) :=
  ⟨rfl, rfl,
    badgeLevel_never_recomputed dbW dbEmpty "u2" "e2" "N2" none "t0" "p1"
      (1/2) 5000 "t6" "n1" samplePickup sampleProfile rfl rfl⟩

/-- C5 counterexample: after the reachable run `demoRun` — profile created
with zero baselines, one request driven through the whole lifecycle and
completed with a 5000-credit award — the stored profile still has
`badgeLevel = "seedling"` while its balance 5000 lies in the top tier of the
threshold table, so the stored tier does not equal the tier whose range
contains the balance. -/
theorem badgeLevel_drift_counterexample :
    demoRun.map (fun d => (getRec d.profiles "u1").map
      StoredProfile.badgeLevel) = .ok (some "seedling") ∧
    demoRun.map (fun d => (getRec d.profiles "u1").map
      StoredProfile.greenCredits) = .ok (some ((0 : ℚ) + 5000)) ∧
    badgeTierOf ((0 : ℚ) + 5000) = "earth_guardian" ∧
    ("seedling" : String) ≠ "earth_guardian" := by
  refine ⟨rfl, rfl, ?_, by decide⟩
  norm_num [badgeTierOf]

/-- C10: `createNotification` stores the caller record with `isRead` forced
to `false` even when the caller supplies `isRead = true`, and
`markNotificationAsRead` sets `isRead` to `true` on the addressed
notification and changes none of its other fields and no other record. -/
theorem notification_read_flag (db : DB) (u t b ty : String) (d : NotifData)
    (ir : Bool) (newId now nid : String) (n : StoredNotification)
    (h : getRec db.notifications nid = some n) :
    ((createNotification db u t b ty d ir newId now).notifications =
      db.notifications ++
        [(newId,
          { userId := u, title := t, body := b, type := ty, data := d,
            isRead := some false, createdAt := now })]) ∧
    (∃ db', markNotificationAsRead db nid = .ok db' ∧
      getRec db'.notifications nid = some { n with isRead := some true } ∧
      (∀ k, k ≠ nid → getRec db'.notifications k =
        getRec db.notifications k) ∧
      db'.pickups = db.pickups ∧ db'.pickupItems = db.pickupItems ∧
      db'.profiles = db.profiles ∧ db'.transactions = db.transactions) := by
  refine ⟨rfl, ?_⟩
  unfold markNotificationAsRead
  simp only [h]
  refine ⟨_, rfl, getRec_updateRec_self _ _ _ _ h, ?_, rfl, rfl, rfl, rfl⟩
  intro k hk
  exact getRec_updateRec_ne _ _ _ _ hk

theorem notification_read_flag_witness :
    getRec dbW.notifications "n0" = some sampleNotification ∧
    (((createNotification dbW "u1" "T" "B" "ty" (NotifData.raw "z") true
        "n5" "t1").notifications =
      dbW.notifications ++
        [("n5",
          { userId := "u1", title := "T", body := "B", type := "ty",
            data := NotifData.raw "z", isRead := some false,
            createdAt := "t1" })]) ∧
    (∃ db', markNotificationAsRead dbW "n0" = .ok db' ∧
      getRec db'.notifications "n0" =
        some { sampleNotification with isRead := some true } ∧
      (∀ k, k ≠ "n0" → getRec db'.notifications k =
        getRec dbW.notifications k) ∧
      db'.pickups = dbW.pickups ∧ db'.pickupItems = dbW.pickupItems ∧
      db'.profiles = dbW.profiles ∧
      db'.transactions = dbW.transactions)) :=
  ⟨rfl,
    notification_read_flag dbW "u1" "T" "B" "ty" (NotifData.raw "z") true
      "n5" "t1" "n0" sampleNotification rfl⟩

end EcoCollect
